import Mathlib

/-!
Shallow embedding of the PC-side test orchestrator of the Wifi-for-STM32
repository: `src/PC/CPP/HardwareTester.cpp` / `HardwareTester.hpp`,
`src/PC/CPP/TestLogger.cpp`, and the C variant `src/PC/main.c`.

Bytes are modelled as `Nat` values < 256; machine-integer truncation
(assignment to `uint8_t`, `uint32_t`) appears as explicit `% 256` / `% 2^32`.
Datagrams are `List Nat` of bytes.  A session is modelled by a trace of its
collaborator-visible effects: the id-allocation outcome, the datagrams sent,
the number of listener threads spawned, the per-slot results and the record
handed to the logger.
-/

namespace WifiSTM32

/-- UART peripheral bit (`TEST_UART` in `HardwareTester.hpp` and `main.c`). -/
def TEST_UART : Nat := 2

/-- SPI peripheral bit (`TEST_SPI`). -/
def TEST_SPI : Nat := 4

/-- I2C peripheral bit (`TEST_I2C`). -/
def TEST_I2C : Nat := 8

/-- Success outcome byte (`TEST_SUCCESS 0x01`). -/
def TEST_SUCCESS : Nat := 1

/-- Canonical failure outcome byte (`TEST_FAILED 0xff`). -/
def TEST_FAILED : Nat := 255

/-- Incoming result datagram size in bytes (`IN_MSG_SIZE 6`). -/
def IN_MSG_SIZE : Nat := 6

/-- `struct OutMsg` of `HardwareTester.hpp` / `main.c`: the outbound command.
`payload` is the 256-byte `char payload[256]` buffer contents. -/
structure OutMsg where
  test_id : Nat
  peripheral : Nat
  n_iter : Nat
  p_len : Nat
  payload : List Nat
deriving DecidableEq

/-- `struct InMsg`: the parsed 6-byte inbound result. -/
structure InMsg where
  test_id : Nat
  peripheral : Nat
  test_result : Nat
deriving DecidableEq

/-- The four bytes a `memcpy` of a `uint32_t` writes on the (little-endian)
host, least significant byte first. -/
def u32Bytes (x : Nat) : List Nat :=
  [x % 256, x / 256 % 256, x / 65536 % 256, x / 16777216 % 256]

/-- The `uint32_t` value a `memcpy` from four buffer bytes reconstructs
(little-endian host). -/
def u32OfBytes (b0 b1 b2 b3 : Nat) : Nat :=
  b0 % 256 + 256 * (b1 % 256) + 65536 * (b2 % 256) + 16777216 * (b3 % 256)

/-- Body of `HardwareTester::recvInMsg` (and of `udp_receive_data` in
`main.c`) after a successful 6-byte `recvfrom`: parse the buffer into an
`InMsg` — `memcpy` of bytes 0..3 into `test_id`, byte 4 into `peripheral`,
byte 5 into `test_result`. -/
def parseInMsg (buf : List Nat) : InMsg :=
  { test_id := u32OfBytes (buf.getD 0 0) (buf.getD 1 0) (buf.getD 2 0) (buf.getD 3 0)
  , peripheral := buf.getD 4 0 % 256
  , test_result := buf.getD 5 0 % 256 }

/-- The value `HardwareTester::recvInMsg` leaves in `results[idx]` for the
datagram its thread received: when the datagram is not exactly 6 bytes the
function returns early and the slot keeps the `0` that `results.resize`
put there (`false`); otherwise it stores `test_result == TEST_SUCCESS`. -/
def recvSlot (dat : List Nat) : Bool :=
  if dat.length = IN_MSG_SIZE then
    decide ((parseInMsg dat).test_result = TEST_SUCCESS)
  else false

/-- The `outMsg.payload` buffer contents after
`strncpy(outMsg.payload, shared.c_str(), sizeof(outMsg.payload))`:
the first 256 bytes of `shared`, zero-padded to 256 bytes when shorter. -/
def strncpyBuf (shared : List Nat) : List Nat :=
  shared.take 256 ++ List.replicate (256 - shared.length) 0

/-- The datagram `HardwareTester::sendOutMsg` (identically `udp_send_data` in
`main.c`) assembles from `outMsg`: 4 bytes `test_id`, then
`peripheral`, `n_iter`, `p_len`, then the first `p_len` payload-buffer
bytes (the trailing `memcpy` runs only when `p_len > 0`, and for
`p_len = 0` it would copy nothing, so the unconditional `take` is exact). -/
def encodeOutMsg (m : OutMsg) : List Nat :=
  u32Bytes m.test_id ++ [m.peripheral, m.n_iter, m.p_len] ++ m.payload.take m.p_len

/-- The listener count computed in `HardwareTester::runTests`
(`run_parallel_tests` counts the same three bits): one thread per
peripheral bit set among UART, SPI, I2C. -/
def countThreads (flags : Nat) : Nat :=
  (if flags &&& TEST_UART ≠ 0 then 1 else 0) +
  (if flags &&& TEST_SPI ≠ 0 then 1 else 0) +
  (if flags &&& TEST_I2C ≠ 0 then 1 else 0)

/-- The row `TestLogger::logTest` persists for a session, restricted to the
fields the orchestrator computes deterministically: the test id and the
aggregated `all_success` verdict (timestamp and duration are wall-clock
environment inputs and are not modelled). -/
structure RunRecord where
  test_id : Nat
  all_success : Bool
deriving DecidableEq

/-- Collaborator-visible trace of one `HardwareTester::runTests` call:
`allocated` is the id obtained from the logger (`none` when
`getNextTestId` failed), `sends` the datagrams passed to `sendto`,
`nThreads` the listener threads spawned, `slots` the `results` vector at
join time, and `persisted` the record handed to `logTest`. -/
structure RunTrace where
  allocated : Option Nat
  sends : List (List Nat)
  nThreads : Nat
  slots : List Bool
  persisted : Option RunRecord
deriving DecidableEq

/-- `HardwareTester::runTests flags n_iter shared` as a trace function.

`idAlloc` is the outcome of `getNextTestId` (`none` models the logger
throwing, upon which `runTests` prints and returns with nothing sent,
spawned or persisted).  `arrivals` lists the inbound datagrams in the
order the socket serves them; listener thread `i` receives `arrivals[i]`.
The `uint8_t` parameters and the `uint8_t` field assignment
`outMsg.p_len = shared.length()` appear as `% 256`. -/
def runTests : Option Nat → Nat → Nat → List Nat → List (List Nat) → RunTrace
  | none, _, _, _, _ =>
    { allocated := none, sends := [], nThreads := 0, slots := [], persisted := none }
  | some test_id, flags, n_iter, shared, arrivals =>
    let flags8 := flags % 256
    let msg : OutMsg :=
      { test_id := test_id
      , peripheral := flags8
      , n_iter := n_iter % 256
      , p_len := shared.length % 256
      , payload := strncpyBuf shared }
    let n := countThreads flags8
    let slots := (List.range n).map (fun i => recvSlot (arrivals.getD i []))
    { allocated := some test_id
    , sends := [encodeOutMsg msg]
    , nThreads := n
    , slots := slots
    , persisted := some { test_id := test_id, all_success := slots.all (fun b => b) } }

/-- The receive/verdict/persist phase of `run_parallel_tests` in
`src/PC/main.c` (with `recv_thread` and `udp_receive_data`): listener `i`
receives `arrivals[i]`; `udp_receive_data` calls `exit(UDP_ERROR)` whenever
its datagram is not exactly `IN_MSG_SIZE` bytes, which kills the whole
process — modelled as `none`, with nothing logged.  Otherwise each slot
stores `test_result == TEST_SUCCESS` and the AND verdict is logged. -/
def run_parallel_tests (test_id flags : Nat) (arrivals : List (List Nat)) :
    Option RunRecord :=
  let n := countThreads (flags % 256)
  if (List.range n).all (fun i => (arrivals.getD i []).length = IN_MSG_SIZE) then
    let slots := (List.range n).map
      (fun i => decide ((parseInMsg (arrivals.getD i [])).test_result = TEST_SUCCESS))
    some { test_id := test_id, all_success := slots.all (fun b => b) }
  else none

/-- The `test_id` column of the `test_logs` table; `SELECT MAX(test_id)` in
`TestLogger::getNextId` reads only this column, so the store is modelled as
the list of recorded ids. `maxId` is the `MAX` aggregate (0 is never
compared against a row value in the theorems that use it on nonempty lists). -/
def maxId (ids : List Nat) : Nat := ids.foldr Nat.max 0

/-- `TestLogger::getNextId`: `SELECT MAX(test_id) FROM test_logs;` — a NULL
aggregate (no rows) leaves `next_id = 1`, otherwise the maximum plus one. -/
def getNextId (ids : List Nat) : Nat :=
  match ids with
  | [] => 1
  | _ :: _ => maxId ids + 1

/-- `TestLogger::logTest`: `INSERT INTO test_logs ...` — appends a row;
only the `test_id` column is modelled. -/
def logTest (ids : List Nat) (test_id : Nat) : List Nat := ids ++ [test_id]

/-! ### Helper lemmas -/

/-- Mapping `f` over the thread indices `0..l.length-1`, each thread reading
its own arrival, is mapping `f` over the arrivals themselves. -/
theorem range_map_getD {α β : Type} (f : α → β) (d : α) :
    ∀ l : List α, (List.range l.length).map (fun i => f (l.getD i d)) = l.map f := by
  intro l
  induction l with
  | nil => rfl
  | cons a t ih =>
    rw [List.length_cons, List.range_succ_eq_map, List.map_cons, List.map_map, List.map_cons]
    have hf : ((fun i => f ((a :: t).getD i d)) ∘ Nat.succ) = (fun i => f (t.getD i d)) := by
      funext i
      simp [Function.comp, List.getD_cons_succ]
    rw [hf, ih]
    rfl

/-- `List.all` of Booleans is invariant under permutation. -/
theorem perm_all_eq {l1 l2 : List Bool} (h : l1.Perm l2) :
    l1.all (fun b => b) = l2.all (fun b => b) := by
  rw [Bool.eq_iff_iff]
  simp only [List.all_eq_true]
  exact ⟨fun H x hx => H x (h.mem_iff.mpr hx), fun H x hx => H x (h.mem_iff.mp hx)⟩

theorem foldr_max_eq (l : List Nat) (a : Nat) :
    l.foldr Nat.max a = Nat.max (l.foldr Nat.max 0) a := by
  induction l with
  | nil => simp
  | cons x t ih =>
    simp only [List.foldr_cons, ih]
    exact (Nat.max_assoc x (t.foldr Nat.max 0) a).symm

theorem maxId_append_single (ids : List Nat) (x : Nat) :
    maxId (ids ++ [x]) = Nat.max (maxId ids) x := by
  unfold maxId
  rw [List.foldr_append]
  simp only [List.foldr_cons, List.foldr_nil, Nat.max_zero]
  exact foldr_max_eq ids x

/-- The payload buffer is always exactly 256 bytes. -/
theorem strncpyBuf_length (shared : List Nat) : (strncpyBuf shared).length = 256 := by
  simp only [strncpyBuf, List.length_append, List.length_take, List.length_replicate]
  omega

/-- For payloads that fit the wire field, taking `p_len` bytes of the
buffer recovers the payload. -/
theorem strncpyBuf_take (shared : List Nat) (h : shared.length ≤ 255) :
    (strncpyBuf shared).take (shared.length % 256) = shared := by
  have h1 : shared.take 256 = shared := List.take_of_length_le (by omega)
  rw [Nat.mod_eq_of_lt (by omega)]
  unfold strncpyBuf
  rw [h1]
  exact List.take_left shared _

/-! ### Claim theorems -/

/-- Claim C4: for every command message built by `runTests` from a payload of
length `L ≤ 255`, the encoded datagram is exactly `7 + L` bytes: 4 bytes
host-endian `testId`, 1 byte `peripheralMask`, 1 byte `iterationCount`,
1 byte `payloadLength` equal to `L`, then the `L` payload bytes; a
zero-length payload gives exactly 7 bytes. -/
theorem c4_encode_layout (test_id flags n_iter : Nat) (shared : List Nat)
    (arrivals : List (List Nat)) (hlen : shared.length ≤ 255) :
    (runTests (some test_id) flags n_iter shared arrivals).sends =
      [u32Bytes test_id ++ [flags % 256, n_iter % 256, shared.length] ++ shared] ∧
    (u32Bytes test_id ++ [flags % 256, n_iter % 256, shared.length] ++ shared).length =
      7 + shared.length := by
  have ht := strncpyBuf_take shared hlen
  rw [Nat.mod_eq_of_lt (show shared.length < 256 by omega)] at ht
  constructor
  · simp only [runTests, encodeOutMsg,
      Nat.mod_eq_of_lt (show shared.length < 256 by omega), ht]
  · simp [u32Bytes]
    omega

/-- Witness for C4 at a concrete 2-byte payload. -/
theorem c4_witness :
    (runTests (some 1) 2 1 [10, 20] []).sends = [[1, 0, 0, 0, 2, 1, 2, 10, 20]] := by
  have h := c4_encode_layout 1 2 1 [10, 20] [] (by decide)
  simpa [u32Bytes] using h.1

/-- Claim C7: when id allocation fails (`getNextTestId` reports failure),
`runTests` aborts the session: no datagram is sent, no listener threads are
spawned, and no record is persisted. -/
theorem c7_id_alloc_failure_aborts (flags n_iter : Nat) (shared : List Nat)
    (arrivals : List (List Nat)) :
    runTests none flags n_iter shared arrivals =
      { allocated := none, sends := [], nThreads := 0, slots := [], persisted := none } := rfl

/-- Claim C10: `TestLogger::getNextId` returns 1 on an empty store and
otherwise the maximum recorded id plus one; recording a run under the
allocated id before the next allocation makes successive ids strictly
increase (the next allocation is exactly one larger). -/
theorem c10_next_id (ids : List Nat) (h : ids ≠ []) :
    getNextId [] = 1 ∧
    getNextId ids = maxId ids + 1 ∧
    getNextId (logTest ids (getNextId ids)) = getNextId ids + 1 ∧
    getNextId ids < getNextId (logTest ids (getNextId ids)) := by
  obtain ⟨a, t, rfl⟩ := List.exists_cons_of_ne_nil h
  have h3 : getNextId (logTest (a :: t) (getNextId (a :: t))) = getNextId (a :: t) + 1 := by
    show getNextId ((a :: t) ++ [getNextId (a :: t)]) = getNextId (a :: t) + 1
    rw [List.cons_append]
    show maxId ((a :: t) ++ [getNextId (a :: t)]) + 1 = getNextId (a :: t) + 1
    rw [maxId_append_single]
    show Nat.max (maxId (a :: t)) (maxId (a :: t) + 1) + 1 = (maxId (a :: t) + 1) + 1
    have hm : Nat.max (maxId (a :: t)) (maxId (a :: t) + 1) = maxId (a :: t) + 1 :=
      Nat.max_eq_right (Nat.le_succ _)
    rw [hm]
  exact ⟨rfl, rfl, h3, by omega⟩

/-- Witness for C10 at the concrete store `[3, 5]`. -/
theorem c10_witness :
    getNextId [] = 1 ∧
    getNextId [3, 5] = maxId [3, 5] + 1 ∧
    getNextId (logTest [3, 5] (getNextId [3, 5])) = getNextId [3, 5] + 1 ∧
    getNextId [3, 5] < getNextId (logTest [3, 5] (getNextId [3, 5])) :=
  c10_next_id [3, 5] (by decide)

/-- Claim C1 counterexample: with session id 5 and mask UART, the single
result datagram carries `testId = 7 ≠ 5` with outcome byte `0x01`, yet the
session persists overall success — `recvInMsg` never compares the echoed
`test_id` with the session's, so a mismatched-id result counts toward
success, contradicting the claim. -/
theorem c1_counterexample :
    (runTests (some 5) 2 1 [] [[7, 0, 0, 0, 2, 1]]).persisted =
      some { test_id := 5, all_success := true } ∧
    (parseInMsg [7, 0, 0, 0, 2, 1]).test_id ≠ 5 ∧
    ([7, 0, 0, 0, 2, 1] : List Nat).length = IN_MSG_SIZE := by
  decide

/-- Claim C1 (amended): the session's persisted verdict is overall success
if and only if every listener's datagram is 6 bytes with outcome byte
`0x01`; the `testId` field of incoming results is parsed but never compared
with the session id, so mismatched-id results count toward success. -/
theorem c1_success_ignores_testid (test_id flags n_iter : Nat) (shared : List Nat)
    (arrivals : List (List Nat)) (h : arrivals.length = countThreads (flags % 256)) :
    ∃ r : RunRecord,
      (runTests (some test_id) flags n_iter shared arrivals).persisted = some r ∧
      (r.all_success = true ↔ ∀ dat ∈ arrivals, recvSlot dat = true) := by
  refine ⟨_, rfl, ?_⟩
  show ((List.range (countThreads (flags % 256))).map
      (fun i => recvSlot (arrivals.getD i []))).all (fun b => b) = true ↔ _
  rw [← h, range_map_getD]
  simp [List.all_eq_true]

/-- Witness for C1 (amended) at mask UART with one matching success reply. -/
theorem c1_witness :
    ∃ r : RunRecord,
      (runTests (some 5) 2 1 [] [[5, 0, 0, 0, 2, 1]]).persisted = some r ∧
      (r.all_success = true ↔
        ∀ dat ∈ ([[5, 0, 0, 0, 2, 1]] : List (List Nat)), recvSlot dat = true) :=
  c1_success_ignores_testid 5 2 1 [] [[5, 0, 0, 0, 2, 1]] (by decide)

/-- Claim C2 counterexample: called with `peripheralMask = 0`, `runTests`
does not reject: an id is consumed, a datagram is sent, and a record is
persisted (with vacuous overall success). -/
theorem c2_counterexample :
    (runTests (some 1) 0 1 [] []).sends ≠ [] ∧
    (runTests (some 1) 0 1 [] []).persisted ≠ none ∧
    (runTests (some 1) 0 1 [] []).allocated ≠ none := by
  decide

/-- Claim C2 (amended): `runTests` performs no empty-mask precondition
check; with `peripheralMask = 0` it uses the allocated id, sends the
encoded command datagram, spawns zero listeners, and persists a record
whose overall result is vacuously true.  (The empty mask is only prevented
by the CLI layer, which refuses to invoke the orchestrator without at
least one peripheral flag.) -/
theorem c2_mask_zero_behavior (test_id n_iter : Nat) (shared : List Nat)
    (arrivals : List (List Nat)) :
    (runTests (some test_id) 0 n_iter shared arrivals).allocated = some test_id ∧
    (runTests (some test_id) 0 n_iter shared arrivals).sends =
      [encodeOutMsg
        { test_id := test_id
        , peripheral := 0
        , n_iter := n_iter % 256
        , p_len := shared.length % 256
        , payload := strncpyBuf shared }] ∧
    (runTests (some test_id) 0 n_iter shared arrivals).nThreads = 0 ∧
    (runTests (some test_id) 0 n_iter shared arrivals).slots = [] ∧
    (runTests (some test_id) 0 n_iter shared arrivals).persisted =
      some { test_id := test_id, all_success := true } := by
  refine ⟨rfl, ?_, ?_, ?_, ?_⟩ <;>
    simp [runTests, countThreads, TEST_UART, TEST_SPI, TEST_I2C]

/-- Claim C3 counterexample: mask UART|SPI with the same two result
datagrams delivered in the two possible orders (a permutation of one
another): the slot contents differ — slots are filled by arrival order
(thread index), not by the peripheral's position in the requested set. -/
theorem c3_counterexample :
    ([[0, 0, 0, 0, 4, 255], [0, 0, 0, 0, 2, 1]] : List (List Nat)).Perm
      [[0, 0, 0, 0, 2, 1], [0, 0, 0, 0, 4, 255]] ∧
    (runTests (some 1) 6 1 [] [[0, 0, 0, 0, 2, 1], [0, 0, 0, 0, 4, 255]]).slots ≠
      (runTests (some 1) 6 1 [] [[0, 0, 0, 0, 4, 255], [0, 0, 0, 0, 2, 1]]).slots := by
  constructor
  · exact List.Perm.swap _ _ _
  · decide

/-- Claim C3 (amended): slot `i` stores the outcome of the `i`-th-served
datagram (arrival order), not the peripheral's position in the requested
set; only the persisted record (the AND verdict) is invariant under
permuting the arrival order of the same datagrams. -/
theorem c3_slots_by_arrival_order (test_id flags n_iter : Nat) (shared : List Nat)
    (A B : List (List Nat)) (hA : A.length = countThreads (flags % 256))
    (hperm : A.Perm B) :
    (runTests (some test_id) flags n_iter shared A).slots = A.map recvSlot ∧
    (runTests (some test_id) flags n_iter shared A).persisted =
      (runTests (some test_id) flags n_iter shared B).persisted := by
  have hB : B.length = countThreads (flags % 256) := hperm.length_eq ▸ hA
  have hsA : (runTests (some test_id) flags n_iter shared A).slots = A.map recvSlot := by
    show (List.range (countThreads (flags % 256))).map (fun i => recvSlot (A.getD i [])) = _
    rw [← hA, range_map_getD]
  have hsB : (runTests (some test_id) flags n_iter shared B).slots = B.map recvSlot := by
    show (List.range (countThreads (flags % 256))).map (fun i => recvSlot (B.getD i [])) = _
    rw [← hB, range_map_getD]
  refine ⟨hsA, ?_⟩
  have hpA : (runTests (some test_id) flags n_iter shared A).persisted =
      some { test_id := test_id
           , all_success :=
              ((runTests (some test_id) flags n_iter shared A).slots).all (fun b => b) } := rfl
  have hpB : (runTests (some test_id) flags n_iter shared B).persisted =
      some { test_id := test_id
           , all_success :=
              ((runTests (some test_id) flags n_iter shared B).slots).all (fun b => b) } := rfl
  rw [hpA, hpB, hsA, hsB, perm_all_eq (hperm.map recvSlot)]

/-- Witness for C3 (amended): mask UART|SPI, the two arrival orders of a
success/failure pair give the same persisted record. -/
theorem c3_witness :
    (runTests (some 1) 6 1 [] [[0, 0, 0, 0, 2, 1], [0, 0, 0, 0, 4, 255]]).slots =
      ([[0, 0, 0, 0, 2, 1], [0, 0, 0, 0, 4, 255]] : List (List Nat)).map recvSlot ∧
    (runTests (some 1) 6 1 [] [[0, 0, 0, 0, 2, 1], [0, 0, 0, 0, 4, 255]]).persisted =
      (runTests (some 1) 6 1 [] [[0, 0, 0, 0, 4, 255], [0, 0, 0, 0, 2, 1]]).persisted :=
  c3_slots_by_arrival_order 1 6 1 [] _ _ (by decide) (List.Perm.swap _ _ _)

/-- Claim C5: the persisted record's overall result is the logical AND of
all slot outcomes (`List.all`), and a session in which some slot holds a
failure yields overall failure. -/
theorem c5_overall_and (test_id flags n_iter : Nat) (shared : List Nat)
    (arrivals : List (List Nat)) (i : Nat)
    (hi : i < (runTests (some test_id) flags n_iter shared arrivals).slots.length)
    (hfail : (runTests (some test_id) flags n_iter shared arrivals).slots.getD i true = false) :
    (runTests (some test_id) flags n_iter shared arrivals).persisted =
      some { test_id := test_id
           , all_success :=
              ((runTests (some test_id) flags n_iter shared arrivals).slots).all
                (fun b => b) } ∧
    ((runTests (some test_id) flags n_iter shared arrivals).slots).all (fun b => b) = false := by
  refine ⟨rfl, ?_⟩
  rw [List.getD_eq_getElem _ _ hi] at hfail
  exact List.all_eq_false.mpr ⟨_, List.getElem_mem hi, by simp [hfail]⟩

/-- Witness for C5: mask UART, one failure reply (outcome `0xFF`), slot 0
fails and the persisted verdict is overall failure. -/
theorem c5_witness :
    (runTests (some 1) 2 1 [] [[0, 0, 0, 0, 2, 255]]).persisted =
      some { test_id := 1
           , all_success :=
              ((runTests (some 1) 2 1 [] [[0, 0, 0, 0, 2, 255]]).slots).all (fun b => b) } ∧
    ((runTests (some 1) 2 1 [] [[0, 0, 0, 0, 2, 255]]).slots).all (fun b => b) = false :=
  c5_overall_and 1 2 1 [] [[0, 0, 0, 0, 2, 255]] 0 (by decide) (by decide)

/-- Claim C6: for a 6-byte result datagram, the stored slot outcome is
success if and only if the outcome byte (byte 5) equals `0x01`; in
particular the canonical failure `0xFF` and the value `0x00` are both
treated as failure. -/
theorem c6_success_iff_code01 (dat : List Nat) (hlen : dat.length = IN_MSG_SIZE)
    (hbyte : dat.getD 5 0 < 256) :
    (recvSlot dat = true ↔ dat.getD 5 0 = TEST_SUCCESS) ∧
    (dat.getD 5 0 = TEST_FAILED → recvSlot dat = false) ∧
    (dat.getD 5 0 = 0 → recvSlot dat = false) := by
  have hmod : dat.getD 5 0 % 256 = dat.getD 5 0 := Nat.mod_eq_of_lt hbyte
  have hrs : recvSlot dat = decide (dat.getD 5 0 % 256 = TEST_SUCCESS) := by
    unfold recvSlot
    rw [if_pos hlen]
    rfl
  refine ⟨?_, ?_, ?_⟩
  · rw [hrs, decide_eq_true_eq, hmod]
  · intro h
    rw [hrs, h]
    decide
  · intro h
    rw [hrs, h]
    decide

/-- Witness for C6 at a concrete success datagram. -/
theorem c6_witness :
    (recvSlot [0, 0, 0, 0, 2, 1] = true ↔ ([0, 0, 0, 0, 2, 1] : List Nat).getD 5 0 = TEST_SUCCESS) ∧
    (([0, 0, 0, 0, 2, 1] : List Nat).getD 5 0 = TEST_FAILED →
      recvSlot [0, 0, 0, 0, 2, 1] = false) ∧
    (([0, 0, 0, 0, 2, 1] : List Nat).getD 5 0 = 0 → recvSlot [0, 0, 0, 0, 2, 1] = false) :=
  c6_success_iff_code01 [0, 0, 0, 0, 2, 1] (by decide) (by decide)

/-- Claim C8 counterexample: in the C orchestrator (`main.c`), a listener
that receives a wrong-length datagram does abort the whole session:
`udp_receive_data` calls `exit(UDP_ERROR)`, so nothing is joined, no
verdict is computed and no record is persisted (`none`), contradicting the
claim that a single-listener receive failure only degrades that slot. -/
theorem c8_counterexample :
    run_parallel_tests 1 2 [[0, 0, 0]] = none ∧
    ([0, 0, 0] : List Nat).length ≠ IN_MSG_SIZE := by
  decide

/-- Claim C8 (amended, holds of the C++ orchestrator): in
`HardwareTester::runTests`, a listener whose datagram is not exactly 6
bytes returns early, leaving its slot at failure; all slots still exist
(the join completes) and a record is still persisted.  In the C variant
(`main.c`) the same event instead terminates the process with nothing
persisted. -/
theorem c8_cpp_listener_failure_degrades (test_id flags n_iter : Nat) (shared : List Nat)
    (arrivals : List (List Nat)) (i : Nat) (hi : i < countThreads (flags % 256))
    (hlen : (arrivals.getD i []).length ≠ IN_MSG_SIZE) :
    (runTests (some test_id) flags n_iter shared arrivals).slots.getD i true = false ∧
    (runTests (some test_id) flags n_iter shared arrivals).slots.length =
      countThreads (flags % 256) ∧
    ∃ r, (runTests (some test_id) flags n_iter shared arrivals).persisted = some r := by
  have hs : (runTests (some test_id) flags n_iter shared arrivals).slots =
      (List.range (countThreads (flags % 256))).map (fun j => recvSlot (arrivals.getD j [])) :=
    rfl
  have hlens : (runTests (some test_id) flags n_iter shared arrivals).slots.length =
      countThreads (flags % 256) := by
    rw [hs]
    simp
  refine ⟨?_, hlens, ⟨_, rfl⟩⟩
  have hi2 : i < ((List.range (countThreads (flags % 256))).map
      (fun j => recvSlot (arrivals.getD j []))).length := by
    simp [hi]
  rw [hs, List.getD_eq_getElem _ _ hi2, List.getElem_map, List.getElem_range]
  unfold recvSlot
  rw [if_neg hlen]

/-- Witness for C8 (amended): mask UART, a 1-byte datagram, slot 0 records
failure and a record is still persisted. -/
theorem c8_witness :
    (runTests (some 1) 2 1 [] [[0]]).slots.getD 0 true = false ∧
    (runTests (some 1) 2 1 [] [[0]]).slots.length = countThreads (2 % 256) ∧
    ∃ r, (runTests (some 1) 2 1 [] [[0]]).persisted = some r :=
  c8_cpp_listener_failure_degrades 1 2 1 [] [[0]] 0 (by decide) (by decide)

set_option maxRecDepth 8192 in
/-- Claim C9 counterexample: a payload of exactly 256 bytes is neither
rejected nor truncated before encoding: the `uint8_t` assignment
`outMsg.p_len = shared.length()` wraps 256 to 0, so the orchestrator sends
a 7-byte datagram whose `payloadLength` field is `0 = 256 % 256` — exactly
the modulo-256 wrap the claim rules out. -/
theorem c9_counterexample :
    (runTests (some 1) 2 1 (List.replicate 256 65) []).sends ≠ [] ∧
    ((runTests (some 1) 2 1 (List.replicate 256 65) []).sends.getD 0 []).length = 7 ∧
    ((runTests (some 1) 2 1 (List.replicate 256 65) []).sends.getD 0 []).getD 6 0 = 0 := by
  decide

/-- Claim C9 (amended): a payload of length `L ≤ 255` is accepted and the
`payloadLength` field equals `L` (`L = 255` gives a 262-byte datagram);
for `L ≥ 256` the orchestrator neither rejects nor truncates to 255 — the
sent datagram's `payloadLength` field is `L % 256` and its total length is
`7 + L % 256`, i.e. the length field wraps modulo 256. -/
theorem c9_payload_length_encoding (test_id flags n_iter : Nat) (shared : List Nat)
    (arrivals : List (List Nat)) :
    ∃ d, (runTests (some test_id) flags n_iter shared arrivals).sends = [d] ∧
      d.length = 7 + shared.length % 256 ∧
      d.getD 6 0 = shared.length % 256 ∧
      (shared.length = 255 → d.length = 262) := by
  refine ⟨_, rfl, ?_, ?_, ?_⟩
  · simp [encodeOutMsg, u32Bytes, strncpyBuf_length]
    omega
  · simp [encodeOutMsg, u32Bytes, List.getD_cons_succ, List.getD_cons_zero]
  · intro h
    simp [encodeOutMsg, u32Bytes, strncpyBuf_length, h]

/-- Witness for C9 (amended) at a concrete 255-byte payload: a 262-byte
datagram is sent. -/
theorem c9_witness :
    ∃ d, (runTests (some 1) 2 1 (List.replicate 255 7) []).sends = [d] ∧ d.length = 262 := by
  obtain ⟨d, hd, hlen2, hfield, h255⟩ :=
    c9_payload_length_encoding 1 2 1 (List.replicate 255 7) []
  exact ⟨d, hd, h255 (by rw [List.length_replicate])⟩

end WifiSTM32
